import Mathlib

/-!
Formal model of `src/widgets/button_extra_behavior.py` (class `ButtonExtraBehavior`).

The Python class is a Kivy mixin that classifies pointer interaction episodes into
right-click, middle-click, scroll-up, scroll-down, double-click, long-press and
single-click, using two single-shot clock events (`_long_clock`, `_double_clock`).

The embedding below is a faithful shallow embedding:
* Kivy `ClockEvent` handles are modelled as values carrying an identity, a timeout
  (captured at creation) and a callback; the scheduler is an explicit list of
  pending fire events.  `schedule_once` appends a fire event, `cancel` removes the
  events of a handle, calling a handle (`callClock`, Kivy `ClockEvent.__call__`)
  re-arms it only when it is not currently scheduled, and `is_triggered`
  (`isTriggered`) tests whether the handle is currently scheduled.
* Side effects that leave the classifier (event dispatches, calls into
  `super().on_touch_down` / `on_touch_up` / `trigger_action`, the `ud`/`grab`
  marking of the replayed touch) are recorded in an output trace with timestamps.
* Floats are modelled as rationals; `timeout * .001` becomes `timeout * (1/1000)`.
* A driver (`run` / `runTo`) executes a timed script of touch events, firing every
  due clock event (in due-time order) before each external event, which mirrors the
  single-threaded Kivy clock.
-/

/-- Mouse button kinds carried in `touch.button` when `"button" ∈ touch.profile`. -/
inductive TButton where
  | right
  | middle
  | scrollup
  | scrolldown
  | left
deriving DecidableEq, Repr

/-- Abstraction of a Kivy touch: identity, the results of the external
collaborators (hit test `collide_point`, child dispatch, and the mixed-in
superclass handlers), and the optional mouse-button kind (`none` models a touch
whose profile has no `"button"` entry). -/
structure Touch where
  tid : Nat
  collides : Bool
  childDown : Bool
  childUp : Bool
  button : Option TButton
  superDownResult : Bool
  superUpResult : Bool
deriving DecidableEq, Repr

/-- Kivy `MouseMotionEvent.is_mouse_scrolling`: the button is a scroll button. -/
def Touch.is_mouse_scrolling (t : Touch) : Bool :=
  t.button == some TButton.scrollup || t.button == some TButton.scrolldown

/-- The two callbacks ever handed to `Clock.schedule_once` by the class. -/
inductive Cb where
  | longPressed
  | sendPress
deriving DecidableEq, Repr

/-- A clock-event handle: identity, the timeout captured at creation, and the
callback bound at creation. -/
structure ClockHandle where
  id : Nat
  timeout : ℚ
  cb : Cb
deriving DecidableEq, Repr

/-- A scheduled fire of a clock event. -/
structure Pending where
  id : Nat
  fire_at : ℚ
  cb : Cb
deriving DecidableEq, Repr

/-- The widget `state` property ("down" / "normal"). -/
inductive BtnState where
  | down
  | normal
deriving DecidableEq, Repr

/-- Observable effects of the classifier, recorded with a timestamp:
the six dispatched events, the replayed `super().on_touch_down` /
`super().on_touch_up` calls, the `ud`/`grab_current` marking between them, and
the `trigger_action` call. -/
inductive Output where
  | rightClick
  | middleClick
  | scrollUp
  | scrollDown
  | doubleClick
  | longPress
  | superDown (t : Option Touch)
  | markTouch
  | superUp (t : Option Touch)
  | triggerAction
deriving DecidableEq, Repr

/-- The classification notifications (the seven-way classification; the
single-click path is delivered as replay or `trigger_action`, see
`Output.isDelivery`). -/
def Output.isNotification : Output → Bool
  | rightClick => true
  | middleClick => true
  | scrollUp => true
  | scrollDown => true
  | doubleClick => true
  | longPress => true
  | _ => false

/-- A single-click delivery: a replayed press or a `trigger_action` call. -/
def Output.isDelivery : Output → Bool
  | superDown _ => true
  | triggerAction => true
  | _ => false

/-- Full state of one `ButtonExtraBehavior` instance together with the clock
scheduler, clock-handle identity supply, current time and the recorded traces.
`res` records, per external touch event, the value returned by the handler
(`some b` for a Python `return`, `none` for falling off the end). -/
structure Sys where
  long_time : ℚ
  double_time : ℚ
  double_click_enabled : Bool
  scroll_timeout : ℚ
  long_clock : ClockHandle
  double_clock : ClockHandle
  after_long_press : Bool
  second_click : Bool
  current_touch : Option Touch
  state : BtnState
  hasTriggerAction : Bool
  now : ℚ
  pending : List Pending
  nextId : Nat
  out : List (ℚ × Output)
  res : List (ℚ × Option Bool)
deriving DecidableEq, Repr

/-- Record a dispatched event / external call at the current time. -/
def emit (s : Sys) (o : Output) : Sys :=
  { s with out := s.out ++ [(s.now, o)] }

/-- Kivy `ClockEvent.is_triggered`: the handle is currently scheduled. -/
def isTriggered (s : Sys) (h : ClockHandle) : Bool :=
  s.pending.any fun p => p.id == h.id

/-- Kivy `Clock.schedule_once(cb, timeout)`: create a fresh handle and schedule
its fire at `now + timeout`. -/
def schedule_once (s : Sys) (cb : Cb) (timeout : ℚ) : ClockHandle × Sys :=
  (⟨s.nextId, timeout, cb⟩,
   { s with nextId := s.nextId + 1,
            pending := s.pending ++ [⟨s.nextId, s.now + timeout, cb⟩] })

/-- Kivy `ClockEvent.cancel()`: unschedule the handle (idempotent, safe when
not scheduled). -/
def cancel (s : Sys) (h : ClockHandle) : Sys :=
  { s with pending := s.pending.filter fun p => p.id != h.id }

/-- Kivy `ClockEvent.__call__`: re-arm the event at `now + timeout` if it is not
currently scheduled; no-op otherwise. -/
def callClock (s : Sys) (h : ClockHandle) : Sys :=
  if isTriggered s h then s
  else { s with pending := s.pending ++ [⟨h.id, s.now + h.timeout, h.cb⟩] }

/-- Source `ButtonExtraBehavior.long_pressed`: set `_after_long_press`, dispatch
`on_long_press`, cancel the double-click clock. -/
def long_pressed (s : Sys) : Sys :=
  let s1 := { s with after_long_press := true }
  let s2 := emit s1 Output.longPress
  cancel s2 s2.double_clock

/-- Source `ButtonExtraBehavior.send_press`: the `_double_clock` callback.  If the
long clock is still scheduled, only set `state = "down"`.  Otherwise deliver the
single click: with `scroll_timeout == 0` replay the stored touch through the
superclass down/up handlers (marking `ud`/`grab_current` in between), else call
`trigger_action()`, where a missing `trigger_action` raises `AttributeError`
which the source catches with `pass` (modelled by the `hasTriggerAction` flag);
finally set `state = "normal"`. -/
def send_press (s : Sys) : Sys :=
  if isTriggered s s.long_clock then
    { s with state := BtnState.down }
  else
    let s1 :=
      if s.scroll_timeout = 0 then
        let sa := emit s (Output.superDown s.current_touch)
        let sb := emit sa Output.markTouch
        emit sb (Output.superUp s.current_touch)
      else
        if s.hasTriggerAction then emit s Output.triggerAction else s
    { s1 with state := BtnState.normal }

/-- Source `ButtonExtraBehavior.on_scroll_timeout`: the Kivy property handler fired when
the `scroll_timeout` property changes; the property already holds the new value
when the handler runs (modelled by storing it first).  It grows `long_time` and
`double_time` by `timeout * .001` and re-creates both clock handles, cancelled,
with the new timeouts. -/
def on_scroll_timeout (s : Sys) (timeout : ℚ) : Sys :=
  let s0 := { s with scroll_timeout := timeout }
  let s1 := { s0 with long_time := s0.long_time + timeout * (1/1000) }
  let r1 := schedule_once s1 Cb.longPressed s1.long_time
  let s2 := cancel r1.2 r1.1
  let s3 := { s2 with long_clock := r1.1 }
  let s4 := { s3 with double_time := s3.double_time + timeout * (1/1000) }
  let r2 := schedule_once s4 Cb.sendPress s4.double_time
  let s5 := cancel r2.2 r2.1
  { s5 with double_clock := r2.1 }

/-- Source `ButtonExtraBehavior.on_touch_down`.  Returns the new state together with the
Python return value (`none` = fell off the end). -/
def on_touch_down (s : Sys) (touch : Touch) : Sys × Option Bool :=
  if touch.childDown then (s, some true)
  else if touch.collides then
    let s0 := { s with current_touch := some touch,
                       after_long_press := false, second_click := false }
    match touch.button with
    | some TButton.right => (emit s0 Output.rightClick, some true)
    | some TButton.middle => (emit s0 Output.middleClick, some true)
    | some TButton.scrollup => (emit s0 Output.scrollUp, some true)
    | some TButton.scrolldown => (emit s0 Output.scrollDown, some true)
    | _ =>
      let s1 := callClock s0 s0.long_clock
      if isTriggered s1 s1.double_clock then
        let s2 := { s1 with second_click := true, state := BtnState.down }
        let s3 := cancel s2 s2.double_clock
        (emit s3 Output.doubleClick, some true)
      else if s1.double_click_enabled then
        let s2 := callClock s1 s1.double_clock
        ({ s2 with state := BtnState.down }, some true)
      else
        (emit s1 (Output.superDown (some touch)), some touch.superDownResult)
  else (s, none)

/-- Source `ButtonExtraBehavior.on_touch_up`. -/
def on_touch_up (s : Sys) (touch : Touch) : Sys × Option Bool :=
  if touch.childUp then (s, some true)
  else if touch.collides then
    if touch.is_mouse_scrolling then (s, some true)
    else if isTriggered s s.long_clock then
      let s1 := cancel s s.long_clock
      if s1.double_click_enabled then
        let s2 := if s1.second_click then { s1 with state := BtnState.normal } else s1
        (s2, some true)
      else
        let s2 := { s1 with state := BtnState.normal }
        (emit s2 (Output.superUp (some touch)), some touch.superUpResult)
    else
      if s.second_click then ({ s with state := BtnState.normal }, some true)
      else if s.after_long_press then ({ s with state := BtnState.normal }, some true)
      else (emit s (Output.superUp (some touch)), some touch.superUpResult)
  else (s, none)

/-- Source `ButtonExtraBehavior.__init__` with the given property values
(`scroll_timeout` at its default 0): create both clock handles via
`Clock.schedule_once` and cancel them immediately. -/
def mkSys (lt dt : ℚ) (dce hasTA : Bool) : Sys :=
  let base : Sys :=
    { long_time := lt, double_time := dt, double_click_enabled := dce,
      scroll_timeout := 0,
      long_clock := ⟨0, lt, Cb.longPressed⟩, double_clock := ⟨0, dt, Cb.sendPress⟩,
      after_long_press := false, second_click := false, current_touch := none,
      state := BtnState.normal, hasTriggerAction := hasTA,
      now := 0, pending := [], nextId := 0, out := [], res := [] }
  let r1 := schedule_once base Cb.longPressed lt
  let s1 := cancel r1.2 r1.1
  let s2 := { s1 with long_clock := r1.1 }
  let r2 := schedule_once s2 Cb.sendPress dt
  let s3 := cancel r2.2 r2.1
  { s3 with double_clock := r2.1 }

/-- Run the callback bound to a fired clock event. -/
def applyCb (s : Sys) : Cb → Sys
  | Cb.longPressed => long_pressed s
  | Cb.sendPress => send_press s

/-- Select the scheduled event with `fire_at ≤ t` that has the smallest
`fire_at` (insertion order breaking ties — the clock fires due events in due
order), returning it together with the queue without it. -/
def pickDue (t : ℚ) : List Pending → Option (Pending × List Pending)
  | [] => none
  | p :: rest =>
    if p.fire_at ≤ t then
      match pickDue t rest with
      | none => some (p, rest)
      | some (q, rem) =>
        if q.fire_at < p.fire_at then some (q, p :: rem) else some (p, rest)
    else
      match pickDue t rest with
      | none => none
      | some (q, rem) => some (q, p :: rem)

/-- Fire every scheduled event due at or before `t`, advancing `now` to each
event's scheduled time.  The callbacks of this class never schedule new events,
so the initial queue (passed as structural fuel) bounds the number of fires. -/
def fireDueGo (t : ℚ) : List Pending → Sys → Sys
  | [], s => s
  | _ :: fuel, s =>
    match pickDue t s.pending with
    | none => s
    | some (p, rem) =>
      fireDueGo t fuel (applyCb { s with pending := rem, now := p.fire_at } p.cb)

/-- Fire all clock events due at or before `t`. -/
def fireDue (s : Sys) (t : ℚ) : Sys :=
  fireDueGo t s.pending s

/-- External touch events. -/
inductive Ev where
  | down (t : Touch)
  | up (t : Touch)
deriving DecidableEq, Repr

/-- Dispatch an external touch event to the widget. -/
def applyEv (s : Sys) : Ev → Sys × Option Bool
  | Ev.down t => on_touch_down s t
  | Ev.up t => on_touch_up s t

/-- Process one timed external event: fire due clock events first, advance the
clock, dispatch the event, and record its handler result. -/
def stepEv (s : Sys) : ℚ × Ev → Sys
  | (t, e) =>
    let s1 := fireDue s t
    let s2 := { s1 with now := t }
    let r := applyEv s2 e
    { r.1 with res := r.1.res ++ [(t, r.2)] }

/-- Run a timed script of external events (times must be nondecreasing in a
meaningful script). -/
def run (s : Sys) (evs : List (ℚ × Ev)) : Sys :=
  evs.foldl stepEv s

/-- Run a script, then fire every clock event due up to the horizon `h`. -/
def runTo (s : Sys) (evs : List (ℚ × Ev)) (h : ℚ) : Sys :=
  fireDue (run s evs) h

/-- The classification event dispatched immediately for each terminal button
kind (`none` for the primary button, which is not terminal). -/
def terminalOut : TButton → Option Output
  | TButton.right => some Output.rightClick
  | TButton.middle => some Output.middleClick
  | TButton.scrollup => some Output.scrollUp
  | TButton.scrolldown => some Output.scrollDown
  | TButton.left => none

/-- Well-formedness of a reachable state: every scheduled id and both handle ids
are below the id supply, and the two handles are distinct. -/
def WF (s : Sys) : Prop :=
  (∀ p ∈ s.pending, p.id < s.nextId) ∧
  s.long_clock.id < s.nextId ∧ s.double_clock.id < s.nextId ∧
  s.long_clock.id ≠ s.double_clock.id

/-- A plain primary-button tap (no `"button"` entry, collides, no child
consumption). -/
def tTap : Touch :=
  ⟨0, true, false, false, none, true, true⟩

/-- A second, distinct primary tap. -/
def tTap2 : Touch :=
  ⟨1, true, false, false, none, true, true⟩

/-- A touch outside the widget (fails `collide_point`), consumed by no child. -/
def tMiss : Touch :=
  ⟨5, false, false, false, none, true, true⟩

/-- A state whose long-press clock is armed, for the C8 witness. -/
def sArmedC8 : Sys :=
  { mkSys (1/4) (1/5) true false with
      pending := [⟨0, 1/4, Cb.longPressed⟩, ⟨1, 1/5, Cb.sendPress⟩] }

/-- A state with `scroll_timeout = 50`, a `trigger_action` on the underlying
class, and an idle long clock, for the C7 witness. -/
def sScrollC7 : Sys :=
  { mkSys (1/4) (1/5) true true with scroll_timeout := 50 }

/-- A state as found when the long clock just fired mid-press, for the C2
witness. -/
def sFiredC2 : Sys :=
  { mkSys (1/4) (1/5) true false with
      current_touch := some tTap, state := BtnState.down, now := 1/4,
      pending := [⟨1, 1/5, Cb.sendPress⟩] }

/-- A state whose double-click clock is armed (first press released inside the
window), for the C3 witness. -/
def sPendingC3 : Sys :=
  { mkSys (1/4) (1/5) true false with
      current_touch := some tTap, state := BtnState.down, now := 1/10,
      pending := [⟨1, 1/5, Cb.sendPress⟩] }

/-- A right-button press touch for the C5 witness. -/
def tRight : Touch :=
  ⟨2, true, false, false, some TButton.right, true, true⟩

/-- A scroll-wheel touch for the C5 witness. -/
def tScroll : Touch :=
  ⟨3, true, false, false, some TButton.scrollup, true, true⟩

/-- State after the first primary press at time 0 on a fresh classifier with
double-click enabled (defaults `long_time = 1/4`, `double_time = 1/5`): both
clocks armed, press consumed. -/
def sDown1 : Sys :=
  { long_time := 1/4, double_time := 1/5, double_click_enabled := true,
    scroll_timeout := 0,
    long_clock := ⟨0, 1/4, Cb.longPressed⟩, double_clock := ⟨1, 1/5, Cb.sendPress⟩,
    after_long_press := false, second_click := false, current_touch := some tTap,
    state := BtnState.down, hasTriggerAction := false,
    now := 0, pending := [⟨0, 1/4, Cb.longPressed⟩, ⟨1, 1/5, Cb.sendPress⟩],
    nextId := 2, out := [], res := [(0, some true)] }

/-- State after the matching release at time `r` before the double-click window
closes: long clock cancelled, release consumed, double clock still armed. -/
def sUp1 (r : ℚ) : Sys :=
  { long_time := 1/4, double_time := 1/5, double_click_enabled := true,
    scroll_timeout := 0,
    long_clock := ⟨0, 1/4, Cb.longPressed⟩, double_clock := ⟨1, 1/5, Cb.sendPress⟩,
    after_long_press := false, second_click := false, current_touch := some tTap,
    state := BtnState.down, hasTriggerAction := false,
    now := r, pending := [⟨1, 1/5, Cb.sendPress⟩],
    nextId := 2, out := [], res := [(0, some true), (r, some true)] }

/-- Final state of the deferred-single-click scenario: the double clock fired at
`1/5`, replayed the stored press/release, and reset the surface. -/
def c4Final (r : ℚ) : Sys :=
  { long_time := 1/4, double_time := 1/5, double_click_enabled := true,
    scroll_timeout := 0,
    long_clock := ⟨0, 1/4, Cb.longPressed⟩, double_clock := ⟨1, 1/5, Cb.sendPress⟩,
    after_long_press := false, second_click := false, current_touch := some tTap,
    state := BtnState.normal, hasTriggerAction := false,
    now := 1/5, pending := [],
    nextId := 2,
    out := [(1/5, Output.superDown (some tTap)), (1/5, Output.markTouch),
            (1/5, Output.superUp (some tTap))],
    res := [(0, some true), (r, some true)] }

/-- State after a second press at time `b` arrived inside the double-click
window opened by a press at 0 and a release at `a`: the double-click was
dispatched synchronously at `b`, the double clock cancelled — and the long
clock armed at `b`, firing at `b + 1/4` if the press is held that long. -/
def c1Down2 (a b : ℚ) : Sys :=
  { long_time := 1/4, double_time := 1/5, double_click_enabled := true,
    scroll_timeout := 0,
    long_clock := ⟨0, 1/4, Cb.longPressed⟩, double_clock := ⟨1, 1/5, Cb.sendPress⟩,
    after_long_press := false, second_click := true, current_touch := some tTap2,
    state := BtnState.down, hasTriggerAction := false,
    now := b, pending := [⟨0, b + 1/4, Cb.longPressed⟩],
    nextId := 2, out := [(b, Output.doubleClick)],
    res := [(0, some true), (a, some true), (b, some true)] }

/-- State after the long clock armed by the second press fired at `b + 1/4`:
a long-press was dispatched in the same episode as the double-click. -/
def c1Fired (a b : ℚ) : Sys :=
  { long_time := 1/4, double_time := 1/5, double_click_enabled := true,
    scroll_timeout := 0,
    long_clock := ⟨0, 1/4, Cb.longPressed⟩, double_clock := ⟨1, 1/5, Cb.sendPress⟩,
    after_long_press := true, second_click := true, current_touch := some tTap2,
    state := BtnState.down, hasTriggerAction := false,
    now := b + 1/4, pending := [],
    nextId := 2, out := [(b, Output.doubleClick), (b + 1/4, Output.longPress)],
    res := [(0, some true), (a, some true), (b, some true)] }

/-- Final state of the double-click episode whose second press was held past
the long-press threshold and released at `u`. -/
def c1FinalPos (a b u : ℚ) : Sys :=
  { long_time := 1/4, double_time := 1/5, double_click_enabled := true,
    scroll_timeout := 0,
    long_clock := ⟨0, 1/4, Cb.longPressed⟩, double_clock := ⟨1, 1/5, Cb.sendPress⟩,
    after_long_press := true, second_click := true, current_touch := some tTap2,
    state := BtnState.normal, hasTriggerAction := false,
    now := u, pending := [],
    nextId := 2, out := [(b, Output.doubleClick), (b + 1/4, Output.longPress)],
    res := [(0, some true), (a, some true), (b, some true), (u, some true)] }

/-- Final state of the double-click episode whose second press was released at
`u` before the long-press threshold. -/
def c1FinalNeg (a b u : ℚ) : Sys :=
  { long_time := 1/4, double_time := 1/5, double_click_enabled := true,
    scroll_timeout := 0,
    long_clock := ⟨0, 1/4, Cb.longPressed⟩, double_clock := ⟨1, 1/5, Cb.sendPress⟩,
    after_long_press := false, second_click := true, current_touch := some tTap2,
    state := BtnState.normal, hasTriggerAction := false,
    now := u, pending := [],
    nextId := 2, out := [(b, Output.doubleClick)],
    res := [(0, some true), (a, some true), (b, some true), (u, some true)] }

/- Rational arithmetic in Batteries is `@[irreducible]`; restore default
reducibility so that concrete runs of the model evaluate by `rfl`/`decide`. -/
unseal Rat.add Rat.mul Rat.inv

section HelperLemmas

@[simp] theorem callClock_long_time (s : Sys) (h : ClockHandle) :
    (callClock s h).long_time = s.long_time := by
  unfold callClock; split <;> rfl

@[simp] theorem callClock_double_time (s : Sys) (h : ClockHandle) :
    (callClock s h).double_time = s.double_time := by
  unfold callClock; split <;> rfl

@[simp] theorem callClock_dce (s : Sys) (h : ClockHandle) :
    (callClock s h).double_click_enabled = s.double_click_enabled := by
  unfold callClock; split <;> rfl

@[simp] theorem callClock_scroll_timeout (s : Sys) (h : ClockHandle) :
    (callClock s h).scroll_timeout = s.scroll_timeout := by
  unfold callClock; split <;> rfl

@[simp] theorem callClock_long_clock (s : Sys) (h : ClockHandle) :
    (callClock s h).long_clock = s.long_clock := by
  unfold callClock; split <;> rfl

@[simp] theorem callClock_double_clock (s : Sys) (h : ClockHandle) :
    (callClock s h).double_clock = s.double_clock := by
  unfold callClock; split <;> rfl

@[simp] theorem callClock_after_long_press (s : Sys) (h : ClockHandle) :
    (callClock s h).after_long_press = s.after_long_press := by
  unfold callClock; split <;> rfl

@[simp] theorem callClock_second_click (s : Sys) (h : ClockHandle) :
    (callClock s h).second_click = s.second_click := by
  unfold callClock; split <;> rfl

@[simp] theorem callClock_current_touch (s : Sys) (h : ClockHandle) :
    (callClock s h).current_touch = s.current_touch := by
  unfold callClock; split <;> rfl

@[simp] theorem callClock_state (s : Sys) (h : ClockHandle) :
    (callClock s h).state = s.state := by
  unfold callClock; split <;> rfl

@[simp] theorem callClock_now (s : Sys) (h : ClockHandle) :
    (callClock s h).now = s.now := by
  unfold callClock; split <;> rfl

@[simp] theorem callClock_out (s : Sys) (h : ClockHandle) :
    (callClock s h).out = s.out := by
  unfold callClock; split <;> rfl

@[simp] theorem callClock_res (s : Sys) (h : ClockHandle) :
    (callClock s h).res = s.res := by
  unfold callClock; split <;> rfl

/-- Cancelling a handle unschedules it. -/
theorem isTriggered_cancel_self (s : Sys) (h : ClockHandle) :
    isTriggered (cancel s h) h = false := by
  simp only [isTriggered, cancel, List.any_eq_true, List.mem_filter]
  simp only [Bool.not_eq_true, List.any_eq_false, List.mem_filter, and_imp]
  intro p _ hne
  simpa using hne

/-- Cancelling one handle cannot schedule another. -/
theorem isTriggered_cancel_of_false (s : Sys) (h h2 : ClockHandle)
    (hf : isTriggered s h2 = false) : isTriggered (cancel s h) h2 = false := by
  simp only [isTriggered, List.any_eq_false] at hf ⊢
  intro p hp
  exact hf p (List.mem_of_mem_filter hp)

/-- Arming one handle keeps any already-scheduled handle scheduled. -/
theorem isTriggered_callClock_true (s : Sys) (h h2 : ClockHandle)
    (ht : isTriggered s h2 = true) : isTriggered (callClock s h) h2 = true := by
  unfold callClock
  split
  · exact ht
  · simp only [isTriggered, List.any_eq_true] at ht ⊢
    obtain ⟨p, hp, hid⟩ := ht
    exact ⟨p, List.mem_append_left _ hp, hid⟩

/-- Lemma: `fireDue` starts the firing loop with the queue itself as fuel. -/
theorem fireDue_eq (s : Sys) (t : ℚ) : fireDue s t = fireDueGo t s.pending s := rfl

/-- The firing loop stops on empty fuel. -/
theorem fireDueGo_nil (t : ℚ) (s : Sys) : fireDueGo t [] s = s := rfl

/-- The firing loop stops when no scheduled event is due. -/
theorem fireDueGo_cons_none (t : ℚ) (a : Pending) (l : List Pending) (s : Sys)
    (h : pickDue t s.pending = none) : fireDueGo t (a :: l) s = s := by
  unfold fireDueGo
  rw [h]

/-- The firing loop fires the earliest due event and continues. -/
theorem fireDueGo_cons_some (t : ℚ) (a : Pending) (l : List Pending) (s : Sys)
    (p : Pending) (rem : List Pending) (h : pickDue t s.pending = some (p, rem)) :
    fireDueGo t (a :: l) s =
      fireDueGo t l (applyCb { s with pending := rem, now := p.fire_at } p.cb) := by
  conv_lhs => unfold fireDueGo
  rw [h]

/-- The recomputed `long_time` after a `scroll_timeout` change. -/
theorem on_scroll_timeout_long_time (s : Sys) (T : ℚ) :
    (on_scroll_timeout s T).long_time = s.long_time + T * (1/1000) := rfl

/-- The recomputed `double_time` after a `scroll_timeout` change. -/
theorem on_scroll_timeout_double_time (s : Sys) (T : ℚ) :
    (on_scroll_timeout s T).double_time = s.double_time + T * (1/1000) := rfl

end HelperLemmas

section ClaimC8

/-- Claim C8: if the double-click timer fires while the long-press timer is
still armed, `send_press` only sets the surface engaged (`state = "down"`) and
delivers nothing: no replay, no `trigger_action`, no reset to idle, and the
scheduler queue — in particular the still-armed long-press timer — is
untouched, as the full state equality shows. -/
theorem c8_race_engage_only (s : Sys) (hlong : isTriggered s s.long_clock = true) :
    send_press s = { s with state := BtnState.down } := by
  unfold send_press
  rw [if_pos hlong]

/-- Witness for C8 at a concrete armed state. -/
theorem c8_witness : send_press sArmedC8 = { sArmedC8 with state := BtnState.down } :=
  c8_race_engage_only sArmedC8 (by decide)

end ClaimC8

section ClaimC9

/-- Claim C9: a touch event (down or up) that fails the hit test and that no
child consumes returns without consuming (`none`, Python `None`) and leaves the
whole classifier state — pointer, flags, both clock handles, scheduler and
surface state — unchanged. -/
theorem c9_miss_no_effect (s : Sys) (touch : Touch) (hcol : touch.collides = false)
    (hcd : touch.childDown = false) (hcu : touch.childUp = false) :
    on_touch_down s touch = (s, none) ∧ on_touch_up s touch = (s, none) := by
  constructor
  · unfold on_touch_down
    rw [if_neg (by simp [hcd]), if_neg (by simp [hcol])]
  · unfold on_touch_up
    rw [if_neg (by simp [hcu]), if_neg (by simp [hcol])]

/-- Witness for C9 at a concrete missing touch. -/
theorem c9_witness :
    on_touch_down (mkSys (1/4) (1/5) true false) tMiss = (mkSys (1/4) (1/5) true false, none)
    ∧ on_touch_up (mkSys (1/4) (1/5) true false) tMiss = (mkSys (1/4) (1/5) true false, none) :=
  c9_miss_no_effect (mkSys (1/4) (1/5) true false) tMiss (by decide) (by decide) (by decide)

end ClaimC9

section ClaimC7

/-- Claim C7: when the deferred single click resolves (`send_press` with the
long-press clock no longer armed) and `scroll_timeout ≠ 0`, the classifier calls
`trigger_action` instead of replaying press/release; if the underlying class
has no `trigger_action` the `AttributeError` is caught (`pass`) and delivery is
a silent no-op — `send_press` returns normally either way — and the surface is
reset to idle (`state = "normal"`) in both cases. -/
theorem c7_activate_fallback (s : Sys) (hlong : isTriggered s s.long_clock = false)
    (hst : s.scroll_timeout ≠ 0) :
    send_press s =
      { s with state := BtnState.normal,
               out := s.out ++
                 if s.hasTriggerAction then [(s.now, Output.triggerAction)] else [] } := by
  unfold send_press
  rw [if_neg (by simp [hlong]), if_neg hst]
  dsimp only
  split
  · rfl
  · rw [List.append_nil]

/-- Witness for C7 at a concrete state. -/
theorem c7_witness :
    send_press sScrollC7 =
      { sScrollC7 with state := BtnState.normal,
                       out := sScrollC7.out ++
                         if sScrollC7.hasTriggerAction then
                           [(sScrollC7.now, Output.triggerAction)] else [] } :=
  c7_activate_fallback sScrollC7 (by decide) (by decide)

end ClaimC7

section ClaimC10

/-- Claim C10: the `scroll_timeout` update is cumulative: a sequence of changes
adds each newly set value times `.001` to `long_time` and `double_time`, so the
final durations are the original ones plus the sum of all set values divided by
1000; an earlier contribution is never subtracted. -/
theorem c10_cumulative_scroll_timeout (s : Sys) (ts : List ℚ) :
    (ts.foldl on_scroll_timeout s).long_time = s.long_time + ts.sum * (1/1000)
    ∧ (ts.foldl on_scroll_timeout s).double_time = s.double_time + ts.sum * (1/1000) := by
  induction ts generalizing s with
  | nil => simp
  | cons t rest ih =>
    obtain ⟨h1, h2⟩ := ih (on_scroll_timeout s t)
    simp only [List.foldl_cons, List.sum_cons]
    rw [h1, h2, on_scroll_timeout_long_time, on_scroll_timeout_double_time]
    constructor <;> ring

/-- Witness for C10 at a concrete state and two successive changes. -/
theorem c10_witness :
    ((([100, 50] : List ℚ).foldl on_scroll_timeout (mkSys (1/4) (1/5) true false)).long_time
        = (mkSys (1/4) (1/5) true false).long_time + ([100, 50] : List ℚ).sum * (1/1000))
    ∧ ((([100, 50] : List ℚ).foldl on_scroll_timeout (mkSys (1/4) (1/5) true false)).double_time
        = (mkSys (1/4) (1/5) true false).double_time + ([100, 50] : List ℚ).sum * (1/1000)) :=
  c10_cumulative_scroll_timeout (mkSys (1/4) (1/5) true false) [100, 50]

end ClaimC10

section ClaimC2

/-- Claim C2: when the long-press clock fires (its fire event was just removed
from the scheduler, so `isTriggered` is false for it), `long_pressed` sets the
long-press flag, dispatches exactly one `on_long_press`, and cancels the
double-click clock unconditionally; a release following it (same episode, so no
intervening press) is consumed (`True`) and emits nothing — in particular no
single-click delivery. -/
theorem c2_long_press_resolution (s : Sys) (touch : Touch)
    (hlong : isTriggered s s.long_clock = false)
    (hcu : touch.childUp = false) (hcol : touch.collides = true) :
    (long_pressed s).after_long_press = true
    ∧ (long_pressed s).out = s.out ++ [(s.now, Output.longPress)]
    ∧ isTriggered (long_pressed s) (long_pressed s).double_clock = false
    ∧ (on_touch_up (long_pressed s) touch).2 = some true
    ∧ (on_touch_up (long_pressed s) touch).1.out = (long_pressed s).out := by
  have hlong2 : isTriggered (long_pressed s) (long_pressed s).long_clock = false := by
    unfold long_pressed
    exact isTriggered_cancel_of_false _ _ _ hlong
  have hal : (long_pressed s).after_long_press = true := rfl
  have key : on_touch_up (long_pressed s) touch = (long_pressed s, some true)
      ∨ on_touch_up (long_pressed s) touch =
          ({ long_pressed s with state := BtnState.normal }, some true) := by
    unfold on_touch_up
    rw [if_neg (by simp [hcu]), if_pos hcol]
    by_cases hms : touch.is_mouse_scrolling = true
    · rw [if_pos hms]
      left; rfl
    · rw [if_neg hms, if_neg (by simp [hlong2])]
      by_cases hsc : (long_pressed s).second_click = true
      · rw [if_pos hsc]
        right; rfl
      · rw [if_neg hsc, if_pos hal]
        right; rfl
  refine ⟨hal, rfl, ?_, ?_, ?_⟩
  · unfold long_pressed
    exact isTriggered_cancel_self _ _
  · rcases key with hk | hk <;> rw [hk]
  · rcases key with hk | hk <;> rw [hk]

/-- Witness for C2 at a concrete state and release. -/
theorem c2_witness :
    (long_pressed sFiredC2).after_long_press = true
    ∧ (long_pressed sFiredC2).out = sFiredC2.out ++ [(sFiredC2.now, Output.longPress)]
    ∧ isTriggered (long_pressed sFiredC2) (long_pressed sFiredC2).double_clock = false
    ∧ (on_touch_up (long_pressed sFiredC2) tTap).2 = some true
    ∧ (on_touch_up (long_pressed sFiredC2) tTap).1.out = (long_pressed sFiredC2).out :=
  c2_long_press_resolution sFiredC2 tTap (by decide) (by decide) (by decide)

end ClaimC2

section ClaimC3

/-- Claim C3: a primary-button press arriving while the double-click clock is
armed cancels that clock, sets the surface engaged (`state = "down"`),
dispatches exactly one `on_double_click` synchronously during the press (the
output gained is exactly the one entry, timestamped now), consumes the press
(`True`), and leaves the double-click clock unscheduled, so no deferred
single-click can fire for the pair. -/
theorem c3_second_press_double (s : Sys) (touch : Touch)
    (hcd : touch.childDown = false) (hcol : touch.collides = true)
    (hbtn : touch.button = none ∨ touch.button = some TButton.left)
    (hdc : isTriggered s s.double_clock = true) :
    (on_touch_down s touch).2 = some true
    ∧ (on_touch_down s touch).1.out = s.out ++ [(s.now, Output.doubleClick)]
    ∧ (on_touch_down s touch).1.state = BtnState.down
    ∧ (on_touch_down s touch).1.second_click = true
    ∧ isTriggered (on_touch_down s touch).1 (on_touch_down s touch).1.double_clock = false := by
  have harm : isTriggered (callClock { s with current_touch := some touch,
                                              after_long_press := false,
                                              second_click := false } s.long_clock)
      s.double_clock = true := by
    apply isTriggered_callClock_true
    exact hdc
  unfold on_touch_down
  rw [if_neg (by simp [hcd]), if_pos hcol]
  rcases hbtn with hb | hb <;> rw [hb] <;> dsimp only <;>
    simp only [callClock_double_clock] <;> rw [if_pos harm] <;>
    exact ⟨rfl, by simp [emit, cancel], rfl, rfl, isTriggered_cancel_self _ _⟩

/-- Witness for C3 at a concrete state and second press. -/
theorem c3_witness :
    (on_touch_down sPendingC3 tTap2).2 = some true
    ∧ (on_touch_down sPendingC3 tTap2).1.out = sPendingC3.out ++ [(sPendingC3.now, Output.doubleClick)]
    ∧ (on_touch_down sPendingC3 tTap2).1.state = BtnState.down
    ∧ (on_touch_down sPendingC3 tTap2).1.second_click = true
    ∧ isTriggered (on_touch_down sPendingC3 tTap2).1 (on_touch_down sPendingC3 tTap2).1.double_clock = false :=
  c3_second_press_double sPendingC3 tTap2 (by decide) (by decide) (Or.inl (by decide)) (by decide)

end ClaimC3

section ClaimC5

/-- Claim C5: (1) a press with a right/middle/scroll-up/scroll-down button
dispatches exactly its terminal notification immediately and is consumed, with
the scheduler untouched (neither timer armed nor cancelled — the check precedes
all click/press/long logic); (2) a scroll release is swallowed outright with no
state change; (3) no release ever adds a classification notification to the
output trace — `on_touch_up` emits at most the raw `super` release. -/
theorem c5_terminal_buttons :
    (∀ (s : Sys) (touch : Touch) (b : TButton) (o : Output),
        touch.childDown = false → touch.collides = true → touch.button = some b →
        terminalOut b = some o →
        (on_touch_down s touch).2 = some true
        ∧ (on_touch_down s touch).1.out = s.out ++ [(s.now, o)]
        ∧ (on_touch_down s touch).1.pending = s.pending)
    ∧ (∀ (s : Sys) (touch : Touch),
        touch.childUp = false → touch.collides = true → touch.is_mouse_scrolling = true →
        on_touch_up s touch = (s, some true))
    ∧ (∀ (s : Sys) (touch : Touch),
        (on_touch_up s touch).1.out = s.out
        ∨ (on_touch_up s touch).1.out = s.out ++ [(s.now, Output.superUp (some touch))]) := by
  refine ⟨?_, ?_, ?_⟩
  · intro s touch b o hcd hcol hb ho
    unfold on_touch_down
    rw [if_neg (by simp [hcd]), if_pos hcol, hb]
    cases b
    · simp only [terminalOut, Option.some.injEq] at ho
      subst ho
      exact ⟨rfl, rfl, rfl⟩
    · simp only [terminalOut, Option.some.injEq] at ho
      subst ho
      exact ⟨rfl, rfl, rfl⟩
    · simp only [terminalOut, Option.some.injEq] at ho
      subst ho
      exact ⟨rfl, rfl, rfl⟩
    · simp only [terminalOut, Option.some.injEq] at ho
      subst ho
      exact ⟨rfl, rfl, rfl⟩
    · simp [terminalOut] at ho
  · intro s touch hcu hcol hms
    unfold on_touch_up
    rw [if_neg (by simp [hcu]), if_pos hcol, if_pos hms]
  · intro s touch
    unfold on_touch_up
    dsimp only
    split
    · left; rfl
    · split
      · split
        · left; rfl
        · split
          · split
            · split
              · left; rfl
              · left; rfl
            · right; rfl
          · split
            · left; rfl
            · split
              · left; rfl
              · right; rfl
      · left; rfl

/-- Witness for C5 at concrete presses and releases. -/
theorem c5_witness :
    ((on_touch_down (mkSys (1/4) (1/5) false false) tRight).2 = some true
      ∧ (on_touch_down (mkSys (1/4) (1/5) false false) tRight).1.out =
          (mkSys (1/4) (1/5) false false).out ++
            [((mkSys (1/4) (1/5) false false).now, Output.rightClick)]
      ∧ (on_touch_down (mkSys (1/4) (1/5) false false) tRight).1.pending =
          (mkSys (1/4) (1/5) false false).pending)
    ∧ on_touch_up (mkSys (1/4) (1/5) false false) tScroll =
        (mkSys (1/4) (1/5) false false, some true)
    ∧ ((on_touch_up (mkSys (1/4) (1/5) false false) tTap).1.out =
          (mkSys (1/4) (1/5) false false).out
        ∨ (on_touch_up (mkSys (1/4) (1/5) false false) tTap).1.out =
            (mkSys (1/4) (1/5) false false).out ++
              [((mkSys (1/4) (1/5) false false).now, Output.superUp (some tTap))]) :=
  ⟨c5_terminal_buttons.1 (mkSys (1/4) (1/5) false false) tRight TButton.right
      Output.rightClick (by decide) (by decide) (by decide) (by decide),
   c5_terminal_buttons.2.1 (mkSys (1/4) (1/5) false false) tScroll
      (by decide) (by decide) (by decide),
   c5_terminal_buttons.2.2 (mkSys (1/4) (1/5) false false) tTap⟩

end ClaimC5

section ClaimC6

/-- Dropping entries whose id is excluded by hypothesis keeps the list. -/
theorem filter_ne_id (l : List Pending) (n : Nat) (hl : ∀ p ∈ l, p.id ≠ n) :
    (l.filter fun p => p.id != n) = l := by
  apply List.filter_eq_self.mpr
  intro p hp
  simpa using hl p hp

/-- No entry of the list carries the id, so the handle is not scheduled. -/
theorem any_id_eq_false (l : List Pending) (n : Nat) (hl : ∀ p ∈ l, p.id ≠ n) :
    (l.any fun p => p.id == n) = false := by
  simp only [List.any_eq_false]
  intro p hp
  simpa using hl p hp

/-- The scheduler queue survives a `scroll_timeout` change untouched: the two
`schedule_once` + `cancel` pairs add and remove only the two fresh ids. -/
theorem on_scroll_timeout_pending (s : Sys) (T : ℚ)
    (hids : ∀ p ∈ s.pending, p.id < s.nextId) :
    (on_scroll_timeout s T).pending = s.pending := by
  have h1 : List.filter (fun p => p.id != s.nextId) s.pending = s.pending :=
    filter_ne_id _ _ (fun p hmem => Nat.ne_of_lt (hids p hmem))
  have h2 : List.filter (fun p => p.id != s.nextId + 1) s.pending = s.pending :=
    filter_ne_id _ _ (fun p hmem => Nat.ne_of_lt (Nat.lt_succ_of_lt (hids p hmem)))
  simp only [on_scroll_timeout, schedule_once, cancel]
  simp [List.filter_append, h1, h2]

/-- Claim C6: setting `scroll_timeout` to `T` recomputes
`long_time := long_time + T/1000` and `double_time := double_time + T/1000`,
re-creates both clock handles cancelled with those new timeouts, leaves every
already-scheduled fire event (an armed timer instance, with its original fire
time) untouched, and a handle armed afterwards schedules with the new
duration. -/
theorem c6_scroll_timeout_change (s : Sys) (T : ℚ) (hwf : WF s) :
    (on_scroll_timeout s T).long_time = s.long_time + T * (1/1000)
    ∧ (on_scroll_timeout s T).double_time = s.double_time + T * (1/1000)
    ∧ (on_scroll_timeout s T).long_clock.timeout = s.long_time + T * (1/1000)
    ∧ (on_scroll_timeout s T).double_clock.timeout = s.double_time + T * (1/1000)
    ∧ (on_scroll_timeout s T).pending = s.pending
    ∧ isTriggered (on_scroll_timeout s T) (on_scroll_timeout s T).long_clock = false
    ∧ isTriggered (on_scroll_timeout s T) (on_scroll_timeout s T).double_clock = false
    ∧ callClock (on_scroll_timeout s T) (on_scroll_timeout s T).long_clock
        = { on_scroll_timeout s T with pending := s.pending ++
              [⟨(on_scroll_timeout s T).long_clock.id,
                (on_scroll_timeout s T).now + (s.long_time + T * (1/1000)),
                Cb.longPressed⟩] }
    ∧ callClock (on_scroll_timeout s T) (on_scroll_timeout s T).double_clock
        = { on_scroll_timeout s T with pending := s.pending ++
              [⟨(on_scroll_timeout s T).double_clock.id,
                (on_scroll_timeout s T).now + (s.double_time + T * (1/1000)),
                Cb.sendPress⟩] } := by
  have hids : ∀ p ∈ s.pending, p.id < s.nextId := hwf.1
  have hpend := on_scroll_timeout_pending s T hids
  have htrigL : isTriggered (on_scroll_timeout s T) (on_scroll_timeout s T).long_clock = false := by
    unfold isTriggered
    rw [hpend]
    exact any_id_eq_false _ _ (fun p hmem => Nat.ne_of_lt (hids p hmem))
  have htrigD : isTriggered (on_scroll_timeout s T) (on_scroll_timeout s T).double_clock = false := by
    unfold isTriggered
    rw [hpend]
    exact any_id_eq_false _ _ (fun p hmem => Nat.ne_of_lt (Nat.lt_succ_of_lt (hids p hmem)))
  refine ⟨rfl, rfl, rfl, rfl, hpend, htrigL, htrigD, ?_, ?_⟩
  · unfold callClock
    rw [if_neg (by simp [htrigL]), hpend]
    rfl
  · unfold callClock
    rw [if_neg (by simp [htrigD]), hpend]
    rfl

/-- Witness for C6 at a concrete state and timeout value. -/
theorem c6_witness :
    (on_scroll_timeout (mkSys (1/4) (1/5) true false) 100).long_time = 1/4 + 100 * (1/1000)
    ∧ (on_scroll_timeout (mkSys (1/4) (1/5) true false) 100).double_time = 1/5 + 100 * (1/1000)
    ∧ (on_scroll_timeout (mkSys (1/4) (1/5) true false) 100).long_clock.timeout = 1/4 + 100 * (1/1000)
    ∧ (on_scroll_timeout (mkSys (1/4) (1/5) true false) 100).double_clock.timeout = 1/5 + 100 * (1/1000)
    ∧ (on_scroll_timeout (mkSys (1/4) (1/5) true false) 100).pending = (mkSys (1/4) (1/5) true false).pending
    ∧ isTriggered (on_scroll_timeout (mkSys (1/4) (1/5) true false) 100)
        (on_scroll_timeout (mkSys (1/4) (1/5) true false) 100).long_clock = false
    ∧ isTriggered (on_scroll_timeout (mkSys (1/4) (1/5) true false) 100)
        (on_scroll_timeout (mkSys (1/4) (1/5) true false) 100).double_clock = false
    ∧ callClock (on_scroll_timeout (mkSys (1/4) (1/5) true false) 100)
        (on_scroll_timeout (mkSys (1/4) (1/5) true false) 100).long_clock
        = { on_scroll_timeout (mkSys (1/4) (1/5) true false) 100 with
              pending := (mkSys (1/4) (1/5) true false).pending ++
                [⟨(on_scroll_timeout (mkSys (1/4) (1/5) true false) 100).long_clock.id,
                  (on_scroll_timeout (mkSys (1/4) (1/5) true false) 100).now + (1/4 + 100 * (1/1000)),
                  Cb.longPressed⟩] }
    ∧ callClock (on_scroll_timeout (mkSys (1/4) (1/5) true false) 100)
        (on_scroll_timeout (mkSys (1/4) (1/5) true false) 100).double_clock
        = { on_scroll_timeout (mkSys (1/4) (1/5) true false) 100 with
              pending := (mkSys (1/4) (1/5) true false).pending ++
                [⟨(on_scroll_timeout (mkSys (1/4) (1/5) true false) 100).double_clock.id,
                  (on_scroll_timeout (mkSys (1/4) (1/5) true false) 100).now + (1/5 + 100 * (1/1000)),
                  Cb.sendPress⟩] } :=
  c6_scroll_timeout_change (mkSys (1/4) (1/5) true false) 100
    (by refine ⟨?_, ?_, ?_, ?_⟩ <;> decide)

end ClaimC6

section ClaimC4

/-- Claim C4 counterexample: with double-click enabled, `scroll_timeout = 0`,
no second press, and the first release at `11/50` — after `double_time = 1/5`
but before the long-press threshold `1/4` — the release does cancel the long
clock and is consumed, yet NO single click is ever delivered (empty output
trace), refuting "exactly one single click is delivered at ≈ `double_time`":
when the double clock fired at `1/5` the long clock was still armed, so
`send_press` only set the surface engaged, and nothing ever resolves the
episode. -/
theorem c4_counterexample :
    (runTo (mkSys (1/4) (1/5) true false) [(0, Ev.down tTap), (11/50, Ev.up tTap)] 1).out = []
    ∧ (runTo (mkSys (1/4) (1/5) true false) [(0, Ev.down tTap), (11/50, Ev.up tTap)] 1).res
        = [(0, some true), (11/50, some true)] := by
  refine ⟨?_, ?_⟩ <;> decide

/-- Claim C4 (amended): with double-click enabled, `scroll_timeout = 0`, no
second press, and the first release arriving before `double_time` (hence before
the long-press threshold), the release cancels the long-press clock and is
consumed, and exactly one single click is delivered at exactly `double_time`
after the press — never earlier, as the timestamped trace shows — by replaying
the recorded press, marking it, replaying the release, and resetting the
surface to idle. -/
theorem c4_amended_deferred_click (r : ℚ) (h0 : 0 < r) (hr : r < 1/5) :
    (runTo (mkSys (1/4) (1/5) true false) [(0, Ev.down tTap), (r, Ev.up tTap)] 1).out
        = [(1/5, Output.superDown (some tTap)), (1/5, Output.markTouch),
           (1/5, Output.superUp (some tTap))]
    ∧ (runTo (mkSys (1/4) (1/5) true false) [(0, Ev.down tTap), (r, Ev.up tTap)] 1).res
        = [(0, some true), (r, some true)]
    ∧ (runTo (mkSys (1/4) (1/5) true false) [(0, Ev.down tTap), (r, Ev.up tTap)] 1).state
        = BtnState.normal
    ∧ (runTo (mkSys (1/4) (1/5) true false) [(0, Ev.down tTap), (r, Ev.up tTap)] 1).pending
        = [] := by
  have h1 : ¬ ((1:ℚ)/4 ≤ r) := by linarith
  have h2 : ¬ ((1:ℚ)/5 ≤ r) := by linarith
  have e1 : stepEv (mkSys (1/4) (1/5) true false) (0, Ev.down tTap) = sDown1 := by rfl
  have hpickA : pickDue r sDown1.pending = none := by
    show pickDue r [⟨0, 1/4, Cb.longPressed⟩, ⟨1, 1/5, Cb.sendPress⟩] = none
    simp only [pickDue]
    rw [if_neg h1, if_neg h2]
  have hfA : fireDue sDown1 r = sDown1 := by
    rw [fireDue_eq]
    show fireDueGo r (⟨0, 1/4, Cb.longPressed⟩ :: [⟨1, 1/5, Cb.sendPress⟩]) sDown1 = sDown1
    exact fireDueGo_cons_none _ _ _ _ hpickA
  have e2 : stepEv sDown1 (r, Ev.up tTap) = sUp1 r := by
    simp only [stepEv]
    rw [hfA]
    rfl
  have hpickB : pickDue 1 (sUp1 r).pending = some (⟨1, 1/5, Cb.sendPress⟩, []) := by
    show pickDue 1 [⟨1, 1/5, Cb.sendPress⟩] = some (⟨1, 1/5, Cb.sendPress⟩, [])
    simp only [pickDue]
    rw [if_pos (by norm_num : ((1:ℚ)/5 ≤ 1))]
  have e3 : fireDue (sUp1 r) 1 = c4Final r := by
    rw [fireDue_eq]
    show fireDueGo 1 (⟨1, 1/5, Cb.sendPress⟩ :: []) (sUp1 r) = c4Final r
    rw [fireDueGo_cons_some 1 _ _ _ _ _ hpickB]
    rfl
  have key : runTo (mkSys (1/4) (1/5) true false) [(0, Ev.down tTap), (r, Ev.up tTap)] 1
      = c4Final r := by
    unfold runTo run
    simp only [List.foldl]
    rw [e1, e2, e3]
  rw [key]
  exact ⟨rfl, rfl, rfl, rfl⟩

/-- Witness for the amended C4 at `r = 1/10`. -/
theorem c4_amended_witness :
    (runTo (mkSys (1/4) (1/5) true false) [(0, Ev.down tTap), (1/10, Ev.up tTap)] 1).out
        = [(1/5, Output.superDown (some tTap)), (1/5, Output.markTouch),
           (1/5, Output.superUp (some tTap))]
    ∧ (runTo (mkSys (1/4) (1/5) true false) [(0, Ev.down tTap), (1/10, Ev.up tTap)] 1).res
        = [(0, some true), (1/10, some true)]
    ∧ (runTo (mkSys (1/4) (1/5) true false) [(0, Ev.down tTap), (1/10, Ev.up tTap)] 1).state
        = BtnState.normal
    ∧ (runTo (mkSys (1/4) (1/5) true false) [(0, Ev.down tTap), (1/10, Ev.up tTap)] 1).pending
        = [] :=
  c4_amended_deferred_click (1/10) (by norm_num) (by norm_num)

end ClaimC4

section ClaimC1

/-- Claim C1 counterexample: a double-click episode (press at 0, release at
`1/20`, second press at `1/10`, still held) emits TWO classifications —
`on_double_click` at `1/10` and `on_long_press` at `7/20 = 1/10 + long_time` —
because the second press arms the long clock (source line 172) before the
double-click branch and the double-click dispatch never cancels it.  This
refutes "exactly one classification per completed episode" and in particular
"an episode whose second press dispatches a double-click never additionally
dispatches a long-press regardless of how long that second press is held". -/
theorem c1_counterexample :
    (runTo (mkSys (1/4) (1/5) true false)
        [(0, Ev.down tTap), (1/20, Ev.up tTap), (1/10, Ev.down tTap2)] 1).out
      = [(1/10, Output.doubleClick), (7/20, Output.longPress)] := by
  decide

/-- Claim C1 (amended): in a double-click episode (press at 0, release at
`a < b`, second press at `b` inside the double-click window, release at `u`),
exactly one `on_double_click` fires, synchronously at `b`, and no single-click
is ever delivered for the pair; but the episode additionally dispatches an
`on_long_press` at `b + long_time` exactly when the second press is held at
least `long_time` (the long-press timer armed on the second press is not
cancelled by the double-click dispatch).  Every press and release of the
episode is consumed. -/
theorem c1_amended_double_then_long (a b u : ℚ) (h0 : 0 < a) (hab : a < b)
    (hb : b < 1/5) (hbu : b < u) :
    (runTo (mkSys (1/4) (1/5) true false)
        [(0, Ev.down tTap), (a, Ev.up tTap), (b, Ev.down tTap2), (u, Ev.up tTap2)] 10).out
      = (if b + 1/4 ≤ u
         then [(b, Output.doubleClick), (b + 1/4, Output.longPress)]
         else [(b, Output.doubleClick)])
    ∧ (runTo (mkSys (1/4) (1/5) true false)
        [(0, Ev.down tTap), (a, Ev.up tTap), (b, Ev.down tTap2), (u, Ev.up tTap2)] 10).res
      = [(0, some true), (a, some true), (b, some true), (u, some true)] := by
  have ha1 : ¬ ((1:ℚ)/4 ≤ a) := by linarith
  have ha2 : ¬ ((1:ℚ)/5 ≤ a) := by linarith
  have hb2 : ¬ ((1:ℚ)/5 ≤ b) := by linarith
  have e1 : stepEv (mkSys (1/4) (1/5) true false) (0, Ev.down tTap) = sDown1 := by rfl
  have hpickA : pickDue a sDown1.pending = none := by
    show pickDue a [⟨0, 1/4, Cb.longPressed⟩, ⟨1, 1/5, Cb.sendPress⟩] = none
    simp only [pickDue]
    rw [if_neg ha1, if_neg ha2]
  have hfA : fireDue sDown1 a = sDown1 := by
    rw [fireDue_eq]
    show fireDueGo a (⟨0, 1/4, Cb.longPressed⟩ :: [⟨1, 1/5, Cb.sendPress⟩]) sDown1 = sDown1
    exact fireDueGo_cons_none _ _ _ _ hpickA
  have e2 : stepEv sDown1 (a, Ev.up tTap) = sUp1 a := by
    simp only [stepEv]
    rw [hfA]
    rfl
  have hpickB : pickDue b (sUp1 a).pending = none := by
    show pickDue b [⟨1, 1/5, Cb.sendPress⟩] = none
    simp only [pickDue]
    rw [if_neg hb2]
  have hfB : fireDue (sUp1 a) b = sUp1 a := by
    rw [fireDue_eq]
    show fireDueGo b (⟨1, 1/5, Cb.sendPress⟩ :: []) (sUp1 a) = sUp1 a
    exact fireDueGo_cons_none _ _ _ _ hpickB
  have e3 : stepEv (sUp1 a) (b, Ev.down tTap2) = c1Down2 a b := by
    simp only [stepEv]
    rw [hfB]
    rfl
  unfold runTo run
  simp only [List.foldl]
  rw [e1, e2, e3]
  by_cases hcase : b + 1/4 ≤ u
  · have hpickC : pickDue u (c1Down2 a b).pending
        = some (⟨0, b + 1/4, Cb.longPressed⟩, []) := by
      show pickDue u [⟨0, b + 1/4, Cb.longPressed⟩]
          = some (⟨0, b + 1/4, Cb.longPressed⟩, [])
      simp only [pickDue]
      rw [if_pos hcase]
    have hfC : fireDue (c1Down2 a b) u = c1Fired a b := by
      rw [fireDue_eq]
      show fireDueGo u (⟨0, b + 1/4, Cb.longPressed⟩ :: []) (c1Down2 a b) = c1Fired a b
      rw [fireDueGo_cons_some u _ _ _ _ _ hpickC]
      rfl
    have e4 : stepEv (c1Down2 a b) (u, Ev.up tTap2) = c1FinalPos a b u := by
      simp only [stepEv]
      rw [hfC]
      rfl
    rw [e4, if_pos hcase]
    exact ⟨rfl, rfl⟩
  · have hpickC : pickDue u (c1Down2 a b).pending = none := by
      show pickDue u [⟨0, b + 1/4, Cb.longPressed⟩] = none
      simp only [pickDue]
      rw [if_neg hcase]
    have hfC : fireDue (c1Down2 a b) u = c1Down2 a b := by
      rw [fireDue_eq]
      show fireDueGo u (⟨0, b + 1/4, Cb.longPressed⟩ :: []) (c1Down2 a b) = c1Down2 a b
      exact fireDueGo_cons_none _ _ _ _ hpickC
    have e4 : stepEv (c1Down2 a b) (u, Ev.up tTap2) = c1FinalNeg a b u := by
      simp only [stepEv]
      rw [hfC]
      rfl
    rw [e4, if_neg hcase]
    exact ⟨rfl, rfl⟩

/-- Witness for the amended C1 at `a = 1/20`, `b = 1/10`, `u = 1/2` (second
press held past the long-press threshold). -/
theorem c1_amended_witness :
    (runTo (mkSys (1/4) (1/5) true false)
        [(0, Ev.down tTap), (1/20, Ev.up tTap), (1/10, Ev.down tTap2), (1/2, Ev.up tTap2)] 10).out
      = (if (1:ℚ)/10 + 1/4 ≤ 1/2
         then [((1:ℚ)/10, Output.doubleClick), ((1:ℚ)/10 + 1/4, Output.longPress)]
         else [((1:ℚ)/10, Output.doubleClick)])
    ∧ (runTo (mkSys (1/4) (1/5) true false)
        [(0, Ev.down tTap), (1/20, Ev.up tTap), (1/10, Ev.down tTap2), (1/2, Ev.up tTap2)] 10).res
      = [(0, some true), (1/20, some true), (1/10, some true), (1/2, some true)] :=
  c1_amended_double_then_long (1/20) (1/10) (1/2)
    (by norm_num) (by norm_num) (by norm_num) (by norm_num)

end ClaimC1
